import Mathlib

/-!
Shallow embedding of the core of `ai-agent-rig-tauri`
(`src-tauri/src/lib.rs` and `src-tauri/src/tool.rs`): the connection
manager (`get_connection` / `create_connection`), the tool-schema
normalization loop, and the chat-turn stream-forwarding loop of
`chat_with_agent`.  Network effects (the MCP handshake, the liveness
probe, the model stream) are passed in as explicit outcome values; the
shared `CONNECTION_POOL` slot is explicit state.
-/

set_option autoImplicit false

namespace AiAgent

/-! ### JSON values (serde_json::Value) -/

/-- A JSON value, mirroring `serde_json::Value`.  Objects are ordered
association lists of fields, mirroring `serde_json::Map`. -/
inductive Json where
  | null
  | bool (b : Bool)
  | num (n : Int)
  | str (s : String)
  | arr (elems : List Json)
  | obj (fields : List (String × Json))

/-- `Value::as_object`: the field list when the value is an object. -/
def Json.asObject : Json → Option (List (String × Json))
  | .obj fields => some fields
  | _ => none

/-- `Map::get`: first value bound to key `k`, if any. -/
def lookupField (fields : List (String × Json)) (k : String) : Option Json :=
  match fields with
  | [] => none
  | (k', v) :: rest => if k' = k then some v else lookupField rest k

/-- `Map::insert`: replace the value bound to `k` in place, or append the
binding when `k` is absent. -/
def insertField (fields : List (String × Json)) (k : String) (v : Json) :
    List (String × Json) :=
  match fields with
  | [] => [(k, v)]
  | (k', v') :: rest =>
      if k' = k then (k, v) :: rest else (k', v') :: insertField rest k v

/-! ### Tool descriptors (rmcp::model::Tool) -/

/-- One tool descriptor returned by the MCP server: name, description and
JSON input schema (the fields of the schema object). -/
structure Tool where
  name : String
  description : String
  input_schema : List (String × Json)

/-- The schema-normalization step of `create_connection` (lib.rs lines
144–153): if the schema has a `properties` field that is an object, set
the schema's `required` field to the list of the property keys;
otherwise leave the schema unchanged. -/
def normalizeSchema (schema : List (String × Json)) : List (String × Json) :=
  match lookupField schema "properties" with
  | some props =>
      match props.asObject with
      | some propsObj =>
          let required : List String := propsObj.map Prod.fst
          insertField schema "required" (Json.arr (required.map Json.str))
      | none => schema
  | none => schema

/-- Normalization applied to one tool (the body of the `for tool in &mut
tools` loop). -/
def normalizeTool (t : Tool) : Tool :=
  { t with input_schema := normalizeSchema t.input_schema }

/-- Normalization applied to the whole catalog. -/
def normalizeTools (ts : List Tool) : List Tool :=
  ts.map normalizeTool

/-! ### Endpoint resolution (create_connection, lib.rs lines 127–128) -/

/-- One pass of Rust `str::replace` over characters: replace every
non-overlapping occurrence of `pat` (nonempty) left to right, with
enough fuel to traverse the string. -/
def replaceGo (pat repl : List Char) : Nat → List Char → List Char
  | _, [] => []
  | 0, s => s
  | fuel + 1, c :: cs =>
      if pat.isPrefixOf (c :: cs) then
        repl ++ replaceGo pat repl fuel (List.drop pat.length (c :: cs))
      else
        c :: replaceGo pat repl fuel cs

/-- Rust `str::replace` for a nonempty pattern (the only pattern used in
the source is `"localhost"`). -/
def strReplace (s pat repl : String) : String :=
  if pat.isEmpty then s
  else ⟨replaceGo pat.data repl.data s.data.length s.data⟩

/-- `let server_url = std::env::var("MCP_SERVER_URL").unwrap_or_else(|_|
"http://localhost:8080".to_string())` — the base address, with the
environment variable modelled as an `Option String`. -/
def server_url (mcp_server_url : Option String) : String :=
  mcp_server_url.getD "http://localhost:8080"

/-- `let endpoint = format!("{}/mcp", server_url.replace("localhost",
"192.168.1.4"))` — the address `create_connection` actually targets. -/
def endpoint (mcp_server_url : Option String) : String :=
  strReplace (server_url mcp_server_url) "localhost" "192.168.1.4" ++ "/mcp"

/-! ### Connection manager (lib.rs lines 20–26 and 105–160)

The shared `CONNECTION_POOL` slot (`Arc<Mutex<Option<ConnectionHolder>>>`)
is modelled as an explicit `Option ConnectionHolder` threaded through the
acquisition operation.  The mutex is held for the whole body of
`get_connection`, so each call is one atomic step on that state. -/

/-- `ConnectionHolder` (lib.rs lines 22–26): the peer handle (an opaque
session identifier here), the tool list captured and normalized at
connection-creation time, and (dropped from the model) the opaque
`_service` guard, which carries no observable data. -/
structure ConnectionHolder where
  client : Nat
  tools : List Tool

/-- Outcome of `tokio::time::timeout(Duration::from_secs(2),
holder.client.list_tools(..))`: either the 2-second timer elapsed before
`list_tools` finished, or `list_tools` completed within the timeout with
its own result (a fresh tool list, or an RPC error). -/
inductive ProbeOutcome where
  | elapsed
  | completed (res : Except String (List Tool))

/-- `Result::is_ok` on the `timeout` result: true exactly when the probe
call completed within 2 seconds, whatever its inner result was. -/
def ProbeOutcome.isOkTimeout : ProbeOutcome → Bool
  | .elapsed => false
  | .completed _ => true

/-- Outcome of `tokio::time::timeout(Duration::from_secs(10),
client.list_tools(..))` inside `create_connection`. -/
inductive CatalogOutcome where
  | elapsed
  | completed (res : Except String (List Tool))

/-- `create_connection` (lib.rs lines 124–160).  The network is supplied
as oracles: `serve` maps the resolved endpoint to the handshake outcome
(a peer handle on success), and `catalog` is the outcome of the bounded
tool-catalog request.  Both `?` operators propagate errors; the timeout
elapsing is itself an error (the outer `?` of `.await??`).  On success
the fetched tools are normalized before being stored in the holder. -/
def create_connection (mcp_server_url : Option String)
    (serve : String → Except String Nat) (catalog : CatalogOutcome) :
    Except String ConnectionHolder :=
  match serve (endpoint mcp_server_url) with
  | .error e => .error e
  | .ok peer =>
      match catalog with
      | .elapsed => .error "deadline has elapsed"
      | .completed (.error e) => .error e
      | .completed (.ok tools) =>
          .ok { client := peer, tools := normalizeTools tools }

/-- What one call to `get_connection` leaves behind: the contents of the
shared slot after the call, the returned value (tool list and peer
handle, or error), and how many times `create_connection` was entered. -/
structure AcquireResult where
  slotAfter : Option ConnectionHolder
  result : Except String (List Tool × Nat)
  creations : Nat

/-- `get_connection` (lib.rs lines 105–123) as one atomic step on the
shared slot.  If a holder is cached and the probe's `timeout(..)` call
returns `Ok` (i.e. completed within 2 seconds — `.is_ok()` never
inspects the inner `list_tools` result), the cached tools and client are
returned unchanged.  Otherwise the slot is cleared and
`create_connection` runs once; its outcome is supplied as `create`. -/
def get_connection (slot : Option ConnectionHolder) (probe : ProbeOutcome)
    (create : Except String ConnectionHolder) : AcquireResult :=
  match slot with
  | some holder =>
      if probe.isOkTimeout then
        { slotAfter := some holder
          result := .ok (holder.tools, holder.client)
          creations := 0 }
      else
        match create with
        | .ok h =>
            { slotAfter := some h, result := .ok (h.tools, h.client), creations := 1 }
        | .error e =>
            { slotAfter := none, result := .error e, creations := 1 }
  | none =>
      match create with
      | .ok h =>
          { slotAfter := some h, result := .ok (h.tools, h.client), creations := 1 }
      | .error e =>
          { slotAfter := none, result := .error e, creations := 1 }

/-- A sequence of `get_connection` calls, one per element of `calls`
(each element supplies that call's probe and creation outcomes), run in
the serialization order imposed by the mutex on the shared slot.
Returns the per-call results, the final slot contents, and the total
number of `create_connection` entries. -/
def runCalls (calls : List (ProbeOutcome × Except String ConnectionHolder))
    (slot : Option ConnectionHolder) :
    List (Except String (List Tool × Nat)) × Option ConnectionHolder × Nat :=
  match calls with
  | [] => ([], slot, 0)
  | (p, c) :: rest =>
      let r := get_connection slot p c
      let (results, finalSlot, n) := runCalls rest r.slotAfter
      (r.result :: results, finalSlot, r.creations + n)

/-! ### Chat turn orchestrator (chat_with_agent, lib.rs lines 27–103) -/

/-- `AgentChunk` (lib.rs lines 15–19): the payload emitted to the UI on
the `agent-chunk` event channel. -/
structure AgentChunk where
  delta : Option String
  tool_calls : Option Json

/-- The chunk emitted for a streamed text item. -/
def textChunk (s : String) : AgentChunk :=
  { delta := some s, tool_calls := none }

/-- The chunk emitted on the error paths (missing credential, stream
error): the message travels in `delta`. -/
def errorChunk (msg : String) : AgentChunk :=
  { delta := some msg, tool_calls := none }

/-- `StreamedAssistantContent`: the payload of an intermediate stream
item — a text fragment, or some other recognized content kind (tool
call, reasoning, …) which the loop leaves unhandled. -/
inductive StreamedAssistantContent where
  | text (s : String)
  | otherContent

/-- `MultiTurnStreamItem`: one `Ok` item of the agent stream — an
intermediate content item, the final response (its payload is only
debug-printed), or another recognized variant (the `Ok(_other)` arm). -/
inductive MultiTurnStreamItem where
  | streamItem (content : StreamedAssistantContent)
  | finalResponse (payload : String)
  | otherItem

/-- True exactly on `finalResponse` items. -/
def MultiTurnStreamItem.isFinal : MultiTurnStreamItem → Bool
  | .finalResponse _ => true
  | _ => false

/-- The chunks a single `Ok` stream item causes to be emitted when the
loop does not stop at it: one `textChunk` for a text content item,
nothing for any other variant. -/
def itemChunks : MultiTurnStreamItem → List AgentChunk
  | .streamItem (.text s) => [textChunk s]
  | _ => []

/-- The `while let Some(chunk) = stream.next().await` loop (lib.rs lines
63–99) over the stream's items, each item an `Ok` stream item or an
`Err` with its description.  Returns the chunks emitted to the sink in
order, and the turn's terminal result: text items emit a `textChunk`
and continue; a final response breaks out (emitting nothing, the rest
of the stream unread); other `Ok` variants continue; an error emits an
`errorChunk` with the error's description and returns `Err`; an
exhausted stream returns `Ok`. -/
def processStream (stream : List (Except String MultiTurnStreamItem)) :
    List AgentChunk × Except String Unit :=
  match stream with
  | [] => ([], .ok ())
  | chunk :: rest =>
      match chunk with
      | .ok (.streamItem (.text s)) =>
          let (emitted, res) := processStream rest
          (textChunk s :: emitted, res)
      | .ok (.streamItem .otherContent) => processStream rest
      | .ok (.finalResponse _) => ([], .ok ())
      | .ok .otherItem => processStream rest
      | .error e =>
          ([errorChunk ("Error: " ++ e)], .error ("Stream error: " ++ e))

/-- Markers for the network-touching steps of a chat turn, in the order
the source performs them: constructing the OpenAI client from the
environment, calling `get_connection`, and opening the prompt stream. -/
inductive NetworkStep where
  | modelClientConstruction
  | connectionAcquisition
  | modelStream
deriving Repr, DecidableEq

/-- The name of the statically registered built-in tool
(`tool::GetCurrentTime`, tool.rs line 12). -/
def builtinTimeToolName : String := "get_current_time"

/-- Everything one `chat_with_agent` call leaves observable: the chunks
emitted to the `agent-chunk` channel in order, the network steps
performed, the names of the tools registered on the agent, and the
returned `Result`. -/
structure ChatOutcome where
  emitted : List AgentChunk
  network : List NetworkStep
  agentTools : List String
  result : Except String Unit

/-- The error message of the missing-credential path (lib.rs line 33). -/
def missingKeyMsg : String := "OPENAI_API_KEY environment variable not set"

/-- `chat_with_agent` (lib.rs lines 27–103).  `apiKey` models
`std::env::var("OPENAI_API_KEY")` (`none` = unset); `connResult` is the
outcome `get_connection` would produce; `stream` is the sequence of
items the agent stream yields.  If the key is unset, one `errorChunk`
is emitted and the call returns `Err` before any client construction,
connection acquisition or streaming.  Otherwise the agent is built with
the built-in time tool plus, when `get_connection` succeeds, one
`rmcp_tool` per discovered tool (on failure the `if let Ok` silently
falls through), and the stream loop runs. -/
def chat_with_agent (apiKey : Option String)
    (connResult : Except String (List Tool × Nat))
    (stream : List (Except String MultiTurnStreamItem)) : ChatOutcome :=
  match apiKey with
  | none =>
      { emitted := [errorChunk missingKeyMsg]
        network := []
        agentTools := []
        result := .error missingKeyMsg }
  | some _ =>
      let agentTools :=
        match connResult with
        | .ok (tools, _client) => builtinTimeToolName :: tools.map Tool.name
        | .error _ => [builtinTimeToolName]
      let (emitted, res) := processStream stream
      { emitted := emitted
        network := [.modelClientConstruction, .connectionAcquisition, .modelStream]
        agentTools := agentTools
        result := res }

/-! ### Helper lemmas -/

/-- Looking up a key right after inserting it finds the inserted value,
whether the key was already bound or not. -/
theorem lookupField_insert_self (fields : List (String × Json)) (k : String)
    (v : Json) : lookupField (insertField fields k v) k = some v := by
  induction fields with
  | nil => simp [insertField, lookupField]
  | cons p rest ih =>
      obtain ⟨k', v'⟩ := p
      by_cases hk : k' = k
      · simp [insertField, hk, lookupField]
      · simp [insertField, hk, lookupField, ih]

/-- Processing a stream that starts with `Ok` items none of which is a
final response emits that prefix's chunks and then behaves as on the
tail. -/
theorem processStream_ok_prefix (items : List MultiTurnStreamItem)
    (tail : List (Except String MultiTurnStreamItem))
    (hnf : ∀ i ∈ items, i.isFinal = false) :
    processStream (items.map Except.ok ++ tail)
      = (items.flatMap itemChunks ++ (processStream tail).1,
         (processStream tail).2) := by
  induction items with
  | nil => simp [processStream]
  | cons i rest ih =>
      have hrest : ∀ j ∈ rest, j.isFinal = false := fun j hj =>
        hnf j (List.mem_cons_of_mem i hj)
      have hi := hnf i (List.mem_cons_self i rest)
      cases i with
      | streamItem content =>
          cases content with
          | text s => simp [processStream, itemChunks, ih hrest, textChunk]
          | otherContent => simp [processStream, itemChunks, ih hrest]
      | finalResponse payload => simp [MultiTurnStreamItem.isFinal] at hi
      | otherItem => simp [processStream, itemChunks, ih hrest]

/-- While the cached holder stays live (every probe call completes
within its timeout), a run of acquisitions creates nothing and every
caller gets the cached tools and client. -/
theorem runCalls_live_slot
    (calls : List (ProbeOutcome × Except String ConnectionHolder))
    (holder : ConnectionHolder)
    (hp : ∀ pc ∈ calls, (pc.1 : ProbeOutcome).isOkTimeout = true) :
    runCalls calls (some holder)
      = (List.replicate calls.length (.ok (holder.tools, holder.client)),
         some holder, 0) := by
  induction calls with
  | nil => rfl
  | cons pc rest ih =>
      have h1 := hp pc (List.mem_cons_self pc rest)
      have hrest : ∀ qc ∈ rest, (qc.1 : ProbeOutcome).isOkTimeout = true :=
        fun qc hq => hp qc (List.mem_cons_of_mem pc hq)
      simp [runCalls, get_connection, h1, ih hrest, List.replicate_succ]

/-! ### Claim theorems -/

/-- C1 counterexample: with a cached handle whose liveness probe FAILS
(completes within the 2-second timeout but with an RPC error), the
claim requires the stale handle to be discarded and exactly one new
connection to be created — but `get_connection` only tests
`timeout(..).is_ok()`, so it performs zero creations, keeps the stale
handle in the slot, and returns the cached tools and client. -/
theorem getConnection_failed_probe_counterexample :
    (get_connection (some ⟨0, []⟩)
        (.completed (.error "connection reset by peer")) (.ok ⟨1, []⟩)).creations = 0 ∧
    (get_connection (some ⟨0, []⟩)
        (.completed (.error "connection reset by peer")) (.ok ⟨1, []⟩)).slotAfter
      = some ⟨0, []⟩ ∧
    (get_connection (some ⟨0, []⟩)
        (.completed (.error "connection reset by peer")) (.ok ⟨1, []⟩)).result
      = .ok ([], 0) :=
  ⟨rfl, rfl, rfl⟩

/-- C1 (amended): with a cached handle present, the handle is discarded
and exactly one new connection is created exactly when the probe call
TIMES OUT; whenever the probe call completes within the 2-second
timeout — whether it succeeded or returned an error — the cached handle
and tool list are returned with no recreation and the slot unchanged. -/
theorem getConnection_recreates_only_on_probe_timeout
    (holder : ConnectionHolder) (create : Except String ConnectionHolder)
    (res : Except String (List Tool)) :
    get_connection (some holder) .elapsed create
      = (match create with
         | .ok h => ⟨some h, .ok (h.tools, h.client), 1⟩
         | .error e => ⟨none, .error e, 1⟩) ∧
    get_connection (some holder) (.completed res) create
      = ⟨some holder, .ok (holder.tools, holder.client), 0⟩ := by
  refine ⟨?_, rfl⟩
  cases create <;> rfl

/-- C2: after normalization, a tool whose input schema carries a
`properties` object has a `required` field equal to the list of the
schema's top-level property keys — `create_connection` applies exactly
this rewrite (`normalizeTools`) to every fetched tool before caching. -/
theorem normalizeTool_required_equals_property_keys
    (t : Tool) (props : List (String × Json))
    (h : lookupField t.input_schema "properties" = some (Json.obj props)) :
    lookupField (normalizeTool t).input_schema "required"
      = some (Json.arr ((props.map Prod.fst).map Json.str)) := by
  simp only [normalizeTool, normalizeSchema, h, Json.asObject]
  exact lookupField_insert_self ..

/-- C2 witness: the schema `{"properties": {"a": {}, "b": {}}}` with no
`required` field normalizes to one whose `required` is `["a", "b"]`. -/
theorem normalizeTool_required_witness :
    lookupField
        (normalizeTool
          ⟨"demo", "demo tool",
            [("properties", Json.obj [("a", Json.obj []), ("b", Json.obj [])])]⟩).input_schema
        "required"
      = some (Json.arr [Json.str "a", Json.str "b"]) :=
  normalizeTool_required_equals_property_keys
    ⟨"demo", "demo tool",
      [("properties", Json.obj [("a", Json.obj []), ("b", Json.obj [])])]⟩
    [("a", Json.obj []), ("b", Json.obj [])] rfl

/-- C7 counterexample: with `MCP_SERVER_URL` unset, the endpoint
`create_connection` targets is `http://192.168.1.4:8080/mcp` — the
default base has its `localhost` rewritten to the fixed LAN address
`192.168.1.4`, so the target is not a localhost endpoint (the string
`localhost` does not occur in it at all). -/
theorem endpoint_default_not_localhost :
    endpoint none = "http://192.168.1.4:8080/mcp" ∧
    endpoint none ≠ "http://localhost:8080/mcp" ∧
    ¬ ("localhost".data <:+: (endpoint none).data) := by
  refine ⟨rfl, ?_, ?_⟩ <;> decide

/-- C7 (amended): when `MCP_SERVER_URL` is unset, connection creation
targets the fixed address `http://192.168.1.4:8080/mcp`: the default
base `http://localhost:8080` with `localhost` replaced by the private
LAN address `192.168.1.4`, plus the `/mcp` path. -/
theorem endpoint_default_is_lan_address :
    endpoint none = "http://192.168.1.4:8080/mcp" := rfl

/-- C8: whenever `get_connection` returns an error — which happens only
when `create_connection` fails after the slot was found empty or was
cleared on a probe timeout — the shared slot is empty after the call,
so the next call starts connection creation from scratch. -/
theorem getConnection_error_leaves_slot_empty
    (slot : Option ConnectionHolder) (probe : ProbeOutcome)
    (create : Except String ConnectionHolder) (e : String)
    (h : (get_connection slot probe create).result = .error e) :
    (get_connection slot probe create).slotAfter = none := by
  cases slot with
  | none =>
      cases create with
      | ok h' => simp [get_connection] at h
      | error e' => rfl
  | some holder =>
      cases probe with
      | elapsed =>
          cases create with
          | ok h' => simp [get_connection, ProbeOutcome.isOkTimeout] at h
          | error e' => rfl
      | completed res => simp [get_connection, ProbeOutcome.isOkTimeout] at h

/-- C8 witness: an empty slot and a failing creation leave the slot
empty. -/
theorem getConnection_error_leaves_slot_empty_witness :
    (get_connection none ProbeOutcome.elapsed
        (Except.error "connection refused")).slotAfter = none :=
  getConnection_error_leaves_slot_empty none ProbeOutcome.elapsed
    (Except.error "connection refused") "connection refused" rfl

/-- C10: on the fast path (cached holder present, probe call completed
— here even with a fresh tool list successfully fetched by the liveness
probe), `get_connection` returns the tool list captured at
connection-creation time and discards the probe's fresh list: the
result is the same whatever `freshTools` the probe round-trip
returned. -/
theorem getConnection_fast_path_returns_creation_time_tools
    (holder : ConnectionHolder) (freshTools : List Tool)
    (create : Except String ConnectionHolder) :
    get_connection (some holder) (.completed (.ok freshTools)) create
      = ⟨some holder, .ok (holder.tools, holder.client), 0⟩ := rfl

/-- C3: with no `OPENAI_API_KEY` configured, a chat turn emits exactly
one chunk — the error fragment carrying the missing-credential message
— returns that message as its error result, and performs no network
step at all (no client construction, no connection acquisition, no
stream), whatever the connection and stream oracles would have
yielded. -/
theorem chatWithAgent_missing_key
    (connResult : Except String (List Tool × Nat))
    (stream : List (Except String MultiTurnStreamItem)) :
    chat_with_agent none connResult stream
      = { emitted := [errorChunk missingKeyMsg]
          network := []
          agentTools := []
          result := .error missingKeyMsg } := rfl

/-- C4: when `get_connection` fails, the chat turn registers only the
built-in time tool, emits nothing about the discovery error, and its
emissions and result are exactly those of the stream loop — hence
independent of the discovery error and determined solely by the model
stream. -/
theorem chatWithAgent_discovery_failure_nonfatal (key e : String)
    (stream : List (Except String MultiTurnStreamItem)) :
    chat_with_agent (some key) (.error e) stream
      = { emitted := (processStream stream).1
          network := [.modelClientConstruction, .connectionAcquisition, .modelStream]
          agentTools := [builtinTimeToolName]
          result := (processStream stream).2 } := rfl

/-- C5: for a model stream that yields a run of non-final `Ok` items
followed by a final response (and anything after it), the chat turn
emits exactly one `textChunk` per text item, in stream order, nothing
for the other intermediate items or for the final response, stops
consuming at the final response, and returns success. -/
theorem chatWithAgent_forwards_stream_in_order (key payload : String)
    (connResult : Except String (List Tool × Nat))
    (items : List MultiTurnStreamItem)
    (rest : List (Except String MultiTurnStreamItem))
    (hnf : ∀ i ∈ items, i.isFinal = false) :
    (chat_with_agent (some key) connResult
        (items.map Except.ok
          ++ Except.ok (MultiTurnStreamItem.finalResponse payload) :: rest)).emitted
      = items.flatMap itemChunks ∧
    (chat_with_agent (some key) connResult
        (items.map Except.ok
          ++ Except.ok (MultiTurnStreamItem.finalResponse payload) :: rest)).result
      = .ok () := by
  cases hc : connResult <;>
    simp [chat_with_agent, processStream_ok_prefix items _ hnf, processStream]

/-- C5 witness: three text items then a final response yield exactly the
three text chunks in order and a success result, even though two more
items sit unread after the final response. -/
theorem chatWithAgent_forwards_stream_in_order_witness :
    (chat_with_agent (some "sk-test") (.error "server unreachable")
        ([MultiTurnStreamItem.streamItem (.text "Hel"),
          MultiTurnStreamItem.streamItem (.text "lo "),
          MultiTurnStreamItem.streamItem (.text "there")].map Except.ok
          ++ Except.ok (MultiTurnStreamItem.finalResponse "done")
            :: [Except.ok (MultiTurnStreamItem.streamItem (.text "unread")),
                Except.error "unread"])).emitted
      = [textChunk "Hel", textChunk "lo ", textChunk "there"] ∧
    (chat_with_agent (some "sk-test") (.error "server unreachable")
        ([MultiTurnStreamItem.streamItem (.text "Hel"),
          MultiTurnStreamItem.streamItem (.text "lo "),
          MultiTurnStreamItem.streamItem (.text "there")].map Except.ok
          ++ Except.ok (MultiTurnStreamItem.finalResponse "done")
            :: [Except.ok (MultiTurnStreamItem.streamItem (.text "unread")),
                Except.error "unread"])).result
      = .ok () :=
  chatWithAgent_forwards_stream_in_order "sk-test" "done" (.error "server unreachable")
    [MultiTurnStreamItem.streamItem (.text "Hel"),
     MultiTurnStreamItem.streamItem (.text "lo "),
     MultiTurnStreamItem.streamItem (.text "there")]
    [Except.ok (MultiTurnStreamItem.streamItem (.text "unread")), Except.error "unread"]
    (by intro i hi; fin_cases hi <;> rfl)

/-- C6: for a model stream that yields a run of non-final `Ok` items and
then an error, the chat turn emits the earlier text chunks (which
remain delivered), then exactly one error fragment carrying the error's
description, stops consuming there (the rest of the stream unread), and
returns an error result. -/
theorem chatWithAgent_stream_error (key e : String)
    (connResult : Except String (List Tool × Nat))
    (items : List MultiTurnStreamItem)
    (rest : List (Except String MultiTurnStreamItem))
    (hnf : ∀ i ∈ items, i.isFinal = false) :
    (chat_with_agent (some key) connResult
        (items.map Except.ok ++ Except.error e :: rest)).emitted
      = items.flatMap itemChunks ++ [errorChunk ("Error: " ++ e)] ∧
    (chat_with_agent (some key) connResult
        (items.map Except.ok ++ Except.error e :: rest)).result
      = .error ("Stream error: " ++ e) := by
  cases hc : connResult <;>
    simp [chat_with_agent, processStream_ok_prefix items _ hnf, processStream]

/-- C6 witness: one text item then a stream error yield the text chunk
followed by the error fragment, and an error result; a later item stays
unread. -/
theorem chatWithAgent_stream_error_witness :
    (chat_with_agent (some "sk-test") (.ok ([], 0))
        ([MultiTurnStreamItem.streamItem (.text "partial")].map Except.ok
          ++ Except.error "rate limited"
            :: [Except.ok (MultiTurnStreamItem.finalResponse "unread")])).emitted
      = [textChunk "partial", errorChunk ("Error: " ++ "rate limited")] ∧
    (chat_with_agent (some "sk-test") (.ok ([], 0))
        ([MultiTurnStreamItem.streamItem (.text "partial")].map Except.ok
          ++ Except.error "rate limited"
            :: [Except.ok (MultiTurnStreamItem.finalResponse "unread")])).result
      = .error ("Stream error: " ++ "rate limited") :=
  chatWithAgent_stream_error "sk-test" "rate limited" (.ok ([], 0))
    [MultiTurnStreamItem.streamItem (.text "partial")]
    [Except.ok (MultiTurnStreamItem.finalResponse "unread")]
    (by intro i hi; fin_cases hi; rfl)

/-- C9: the mutex on the shared slot makes each acquisition one atomic
step, so N concurrent calls execute in some serialization order,
modelled by `runCalls`.  Against a healthy server — the first call's
creation succeeds with holder `h`, and every later call's probe
completes within its timeout — a run starting from the empty slot
performs exactly one connection creation (so at most one, no duplicate
handshakes) and every one of the N callers receives the same tool list
and client, `(h.tools, h.client)`. -/
theorem runCalls_healthy_at_most_one_creation
    (h : ConnectionHolder) (p1 : ProbeOutcome)
    (rest : List (ProbeOutcome × Except String ConnectionHolder))
    (hrest : ∀ pc ∈ rest, (pc.1 : ProbeOutcome).isOkTimeout = true) :
    runCalls ((p1, .ok h) :: rest) none
      = (List.replicate (rest.length + 1) (.ok (h.tools, h.client)), some h, 1) := by
  simp [runCalls, get_connection, runCalls_live_slot rest h hrest,
    List.replicate_succ]

/-- C9 witness: three serialized acquisitions against a healthy server —
the first creating holder `⟨7, []⟩`, the next two probing successfully —
produce one creation in total and the same result for all three
callers. -/
theorem runCalls_healthy_witness :
    runCalls
        [(ProbeOutcome.elapsed, Except.ok (⟨7, []⟩ : ConnectionHolder)),
         (ProbeOutcome.completed (.ok []), Except.error "not reached"),
         (ProbeOutcome.completed (.error "late error"), Except.error "not reached")]
        none
      = ([Except.ok (([] : List Tool), 7), Except.ok ([], 7), Except.ok ([], 7)],
         some ⟨7, []⟩, 1) :=
  runCalls_healthy_at_most_one_creation ⟨7, []⟩ ProbeOutcome.elapsed
    [(ProbeOutcome.completed (.ok []), Except.error "not reached"),
     (ProbeOutcome.completed (.error "late error"), Except.error "not reached")]
    (by intro pc hpc; fin_cases hpc <;> rfl)

end AiAgent
